import Mathlib

/-!
Shallow embedding of the request-security pipeline of the condominium
management SaaS gateway: the attack-signature detectors, the Redis-backed
rate-limit and blacklist store, the security composite middleware, the
authentication and authorization middleware, the token utilities, the
login route, the audit middleware and the recursive sanitizer, together
with theorems checking the specification`s claims against them.
-/

namespace Zenith

/-! ## A small regular-expression engine

The gateway`s detectors (`middleware/security.ts`) are lists of JavaScript
regular expressions applied with `RegExp.test` (unanchored search).  The
patterns only use literals, character classes, alternation, concatenation,
star and plus, so we embed them into a regular-expression datatype with
Brzozowski-derivative matching.  Character classes are represented by
boolean predicates on characters; the `/i` flag is reflected by
case-insensitive character predicates.
-/

inductive Rx where
  | fail : Rx
  | eps : Rx
  | sym : (Char → Bool) → Rx
  | alt : Rx → Rx → Rx
  | cat : Rx → Rx → Rx
  | star : Rx → Rx

def Rx.isFail : Rx → Bool
  | .fail => true
  | _ => false

def Rx.isEps : Rx → Bool
  | .eps => true
  | _ => false

/-- Smart alternation: drops `fail` branches to keep derivatives small. -/
def mkAlt (a b : Rx) : Rx :=
  if a.isFail then b
  else if b.isFail then a
  else .alt a b

/-- Smart concatenation: absorbs `fail` and drops `eps` factors. -/
def mkCat (a b : Rx) : Rx :=
  if a.isFail || b.isFail then .fail
  else if a.isEps then b
  else if b.isEps then a
  else .cat a b

def Rx.nullable : Rx → Bool
  | .fail => false
  | .eps => true
  | .sym _ => false
  | .alt a b => a.nullable || b.nullable
  | .cat a b => a.nullable && b.nullable
  | .star _ => true

def Rx.deriv : Rx → Char → Rx
  | .fail, _ => .fail
  | .eps, _ => .fail
  | .sym p, c => if p c then .eps else .fail
  | .alt a b, c => mkAlt (a.deriv c) (b.deriv c)
  | .cat a b, c =>
      if a.nullable then mkAlt (mkCat (a.deriv c) b) (b.deriv c)
      else mkCat (a.deriv c) b
  | .star a, c => mkCat (a.deriv c) (.star a)

/-- Anchored match of a regular expression against a character list. -/
def Rx.accepts (r : Rx) (s : List Char) : Bool :=
  (s.foldl Rx.deriv r).nullable

/-- Any character at all (used to embed unanchored search). -/
def anyChar : Rx := .sym (fun _ => true)

/-- JavaScript `.` and `[^\n]`: any character except a newline. -/
def anyNoNl : Rx := .sym (fun c => !(c == '\n'))

/-- JavaScript `\s` (ASCII portion, which covers every input considered
here): space, tab, newline, carriage return, vertical tab, form feed. -/
def isJsWs (c : Char) : Bool :=
  c == ' ' || c == '\t' || c == '\n' || c == '\x0d' || c == '\x0b' || c == '\x0c'

/-- JavaScript `\w`: ASCII letters, digits and underscore. -/
def isWordChar (c : Char) : Bool :=
  c.isAlpha || c.isDigit || c == '_'

/-- JavaScript `[^a-z]` under the `/i` flag: anything that is not an
ASCII letter of either case. -/
def isNotAsciiLetter (c : Char) : Bool :=
  !('a' ≤ c.toLower && c.toLower ≤ 'z')

/-- A single literal character, case-insensitively (for `/i` patterns). -/
def chCI (c : Char) : Rx := .sym (fun a => a.toLower == c.toLower)

/-- A single literal character, exact case. -/
def chE (c : Char) : Rx := .sym (fun a => a == c)

/-- A literal string, case-insensitively. -/
def litCI (s : String) : Rx :=
  (s.data.map chCI).foldr mkCat .eps

/-- A literal string, exact case. -/
def litE (s : String) : Rx :=
  (s.data.map chE).foldr mkCat .eps

def altList (l : List Rx) : Rx := l.foldr mkAlt .fail

def catList (l : List Rx) : Rx := l.foldr mkCat .eps

/-- `r+`. -/
def plusRx (r : Rx) : Rx := .cat r (.star r)

/-- JavaScript `RegExp.test`: the pattern matches some substring. -/
def rxTest (r : Rx) (s : String) : Bool :=
  Rx.accepts (mkCat (.star anyChar) (mkCat r (.star anyChar))) s.data

/-! ## Attack-signature detectors (`middleware/security.ts`)

Each list below transcribes the corresponding `*_PATTERNS` array from the
source, pattern by pattern, in order.  Special characters inside string
literals are written with `\xNN` escapes.
-/

/-- `/(\%27)|(\')|(\-\-)|(\%23)|(#)/i` -/
def sqlP1 : Rx :=
  altList [litCI "%27", litE "\x27", litE "\x2d\x2d", litCI "%23", litE "#"]

/-- `/((\%3D)|(=))[^\n]*((\%27)|(\')|(\-\-)|(\%3B)|(;))/i` -/
def sqlP2 : Rx :=
  catList [altList [litCI "%3d", litE "="],
           .star anyNoNl,
           altList [litCI "%27", litE "\x27", litE "\x2d\x2d", litCI "%3b", litE ";"]]

/-- `/\w*((\%27)|(\'))((\%6F)|o|(\%4F))((\%72)|r|(\%52))/i` -/
def sqlP3 : Rx :=
  catList [.star (.sym isWordChar),
           altList [litCI "%27", litE "\x27"],
           altList [litCI "%6f", chCI 'o', litCI "%4f"],
           altList [litCI "%72", chCI 'r', litCI "%52"]]

/-- `/((\%27)|(\'))union/i` -/
def sqlP4 : Rx :=
  catList [altList [litCI "%27", litE "\x27"], litCI "union"]

/-- `/exec(\s|\+)+(s|x)p\w+/i` -/
def sqlP5 : Rx :=
  catList [litCI "exec",
           plusRx (altList [.sym isJsWs, chE '+']),
           altList [chCI 's', chCI 'x'],
           chCI 'p',
           plusRx (.sym isWordChar)]

/-- `/union([^a-z]|[\s])+select/i` -/
def sqlP6 : Rx :=
  catList [litCI "union",
           plusRx (altList [.sym isNotAsciiLetter, .sym isJsWs]),
           litCI "select"]

/-- `/select.*from.*where/i` -/
def sqlP7 : Rx :=
  catList [litCI "select", .star anyNoNl, litCI "from", .star anyNoNl, litCI "where"]

/-- `/insert.*into.*values/i` -/
def sqlP8 : Rx :=
  catList [litCI "insert", .star anyNoNl, litCI "into", .star anyNoNl, litCI "values"]

/-- `/delete.*from.*where/i` -/
def sqlP9 : Rx :=
  catList [litCI "delete", .star anyNoNl, litCI "from", .star anyNoNl, litCI "where"]

/-- `/update.*set.*where/i` -/
def sqlP10 : Rx :=
  catList [litCI "update", .star anyNoNl, litCI "set", .star anyNoNl, litCI "where"]

/-- `/drop.*table/i` -/
def sqlP11 : Rx := catList [litCI "drop", .star anyNoNl, litCI "table"]

/-- `/create.*table/i` -/
def sqlP12 : Rx := catList [litCI "create", .star anyNoNl, litCI "table"]

/-- `/alter.*table/i` -/
def sqlP13 : Rx := catList [litCI "alter", .star anyNoNl, litCI "table"]

def SQL_INJECTION_PATTERNS : List Rx :=
  [sqlP1, sqlP2, sqlP3, sqlP4, sqlP5, sqlP6, sqlP7,
   sqlP8, sqlP9, sqlP10, sqlP11, sqlP12, sqlP13]

def detectSQLInjection (input : String) : Bool :=
  SQL_INJECTION_PATTERNS.any (fun pattern => rxTest pattern input)

/-- `[^>]*` -/
def notGtStar : Rx := .star (.sym (fun c => !(c == '>')))

/-- `/<script[^>]*>.*?<\/script>/gi` -/
def xssP1 : Rx :=
  catList [litCI "<script", notGtStar, chE '>', .star anyNoNl, litCI "</script>"]

/-- `/<iframe[^>]*>.*?<\/iframe>/gi` -/
def xssP2 : Rx :=
  catList [litCI "<iframe", notGtStar, chE '>', .star anyNoNl, litCI "</iframe>"]

/-- `/<object[^>]*>.*?<\/object>/gi` -/
def xssP3 : Rx :=
  catList [litCI "<object", notGtStar, chE '>', .star anyNoNl, litCI "</object>"]

/-- `/<embed[^>]*>.*?<\/embed>/gi` -/
def xssP4 : Rx :=
  catList [litCI "<embed", notGtStar, chE '>', .star anyNoNl, litCI "</embed>"]

/-- `/javascript:/gi` -/
def xssP5 : Rx := litCI "javascript:"

/-- `/vbscript:/gi` -/
def xssP6 : Rx := litCI "vbscript:"

/-- `/onload\s*=/gi` -/
def xssP7 : Rx := catList [litCI "onload", .star (.sym isJsWs), chE '=']

/-- `/onerror\s*=/gi` -/
def xssP8 : Rx := catList [litCI "onerror", .star (.sym isJsWs), chE '=']

/-- `/onclick\s*=/gi` -/
def xssP9 : Rx := catList [litCI "onclick", .star (.sym isJsWs), chE '=']

/-- `/onmouseover\s*=/gi` -/
def xssP10 : Rx := catList [litCI "onmouseover", .star (.sym isJsWs), chE '=']

/-- `/<img[^>]*src[^>]*>/gi` -/
def xssP11 : Rx := catList [litCI "<img", notGtStar, litCI "src", notGtStar, chE '>']

/-- `/eval\s*\(/gi` -/
def xssP12 : Rx := catList [litCI "eval", .star (.sym isJsWs), chE '(']

/-- `/expression\s*\(/gi` -/
def xssP13 : Rx := catList [litCI "expression", .star (.sym isJsWs), chE '(']

def XSS_PATTERNS : List Rx :=
  [xssP1, xssP2, xssP3, xssP4, xssP5, xssP6, xssP7,
   xssP8, xssP9, xssP10, xssP11, xssP12, xssP13]

def detectXSS (input : String) : Bool :=
  XSS_PATTERNS.any (fun pattern => rxTest pattern input)

/-- `/\.\.\//g` -/
def ptP1 : Rx := litE "../"

/-- Line two of the source array reads `/\.\.\\g,`: the closing slash and
the `g` flag are transposed, so taken literally the pattern matches the
four characters `..\g`.  We transcribe that literal reading. -/
def ptP2 : Rx := litE "..\\g"

/-- `/%2e%2e%2f/gi` -/
def ptP3 : Rx := litCI "%2e%2e%2f"

/-- `/%2e%2e%5c/gi` -/
def ptP4 : Rx := litCI "%2e%2e%5c"

/-- `/\.\.%2f/gi` -/
def ptP5 : Rx := litCI "..%2f"

/-- `/\.\.%5c/gi` -/
def ptP6 : Rx := litCI "..%5c"

/-- `/%2e%2e\//gi` -/
def ptP7 : Rx := litCI "%2e%2e/"

/-- `/%2e%2e\\/gi` -/
def ptP8 : Rx := litCI "%2e%2e\\"

def PATH_TRAVERSAL_PATTERNS : List Rx :=
  [ptP1, ptP2, ptP3, ptP4, ptP5, ptP6, ptP7, ptP8]

def detectPathTraversal (input : String) : Bool :=
  PATH_TRAVERSAL_PATTERNS.any (fun pattern => rxTest pattern input)

/-! ## String helpers shared by the middleware embeddings -/

/-- Does the second list start with the first one (character-exact)? -/
def leadsWith : List Char → List Char → Bool
  | [], _ => true
  | _ :: _, [] => false
  | a :: as, b :: bs => a == b && leadsWith as bs

/-- Does `s` contain `sub` as a contiguous segment? -/
def containsSubList (sub s : List Char) : Bool :=
  match s with
  | [] => leadsWith sub []
  | _ :: rest => leadsWith sub s || containsSubList sub rest

/-- JavaScript `String.includes`. -/
def containsSub (s sub : String) : Bool := containsSubList sub.data s.data

/-- JavaScript `String.startsWith`. -/
def startsWithStr (s pre : String) : Bool := leadsWith pre.data s.data

/-- JavaScript `String.toLowerCase` (ASCII). -/
def toLowerStr (s : String) : String := ⟨s.data.map Char.toLower⟩

/-! ## JSON-like values and the recursive sanitizer
(`middleware/security.ts`, `sanitizeObject`)

`req.body` and `req.query` are arbitrary JSON-like values.  `sanitizeObject`
maps every string through
`replace(/[<>]/g, "").replace(/javascript:/gi, "").replace(/vbscript:/gi, "").trim()`,
recurses through arrays and objects, and returns every other value
unchanged.
-/

inductive JVal where
  | str (s : String)
  | num (n : Int)
  | bool (b : Bool)
  | null
  | arr (items : List JVal)
  | obj (fields : List (String × JVal))

/-- Case-insensitive variant of `leadsWith` (for `/gi` replacement). -/
def leadsWithCI : List Char → List Char → Bool
  | [], _ => true
  | _ :: _, [] => false
  | a :: as, b :: bs => a.toLower == b.toLower && leadsWithCI as bs

/-- Single left-to-right scan deleting every (non-overlapping) occurrence
of `pat`, case-insensitively: JavaScript `replace(/pat/gi, "")` for a
non-empty literal pattern.  `skip` counts characters of a match still to
be consumed. -/
def stripGo (pat : List Char) : Nat → List Char → List Char
  | _, [] => []
  | n + 1, _ :: rest => stripGo pat n rest
  | 0, c :: rest =>
    if leadsWithCI pat (c :: rest) then stripGo pat (pat.length - 1) rest
    else c :: stripGo pat 0 rest

def stripAllCI (pat : List Char) (s : List Char) : List Char :=
  stripGo pat 0 s

/-- JavaScript `String.trim` (ASCII whitespace). -/
def trimChars (s : List Char) : List Char :=
  ((s.dropWhile isJsWs).reverse.dropWhile isJsWs).reverse

/-- The string branch of `sanitizeObject`:
strip `<` and `>`, strip `javascript:` and `vbscript:` (case-insensitive),
then trim. -/
def sanitizeString (s : String) : String :=
  ⟨trimChars (stripAllCI "vbscript:".data
     (stripAllCI "javascript:".data
       (s.data.filter (fun c => !(c == '<' || c == '>')))))⟩

mutual

/-- `sanitizeObject` from `middleware/security.ts`: sanitize every string,
recurse through arrays and objects, leave everything else unchanged. -/
def sanitizeObject : JVal → JVal
  | .str s => .str (sanitizeString s)
  | .num n => .num n
  | .bool b => .bool b
  | .null => .null
  | .arr items => .arr (sanitizeItems items)
  | .obj fields => .obj (sanitizeFields fields)

def sanitizeItems : List JVal → List JVal
  | [] => []
  | v :: rest => sanitizeObject v :: sanitizeItems rest

def sanitizeFields : List (String × JVal) → List (String × JVal)
  | [] => []
  | f :: rest => (f.1, sanitizeObject f.2) :: sanitizeFields rest

end

mutual

/-- All string values reachable recursively inside a value. -/
def stringsOf : JVal → List String
  | .str s => [s]
  | .num _ => []
  | .bool _ => []
  | .null => []
  | .arr items => stringsOfItems items
  | .obj fields => stringsOfFields fields

def stringsOfItems : List JVal → List String
  | [] => []
  | v :: rest => stringsOf v ++ stringsOfItems rest

def stringsOfFields : List (String × JVal) → List String
  | [] => []
  | f :: rest => stringsOf f.2 ++ stringsOfFields rest

end

mutual

/-- Replace every string content by `""`, keeping all structure and all
non-string leaves: used to state that sanitization changes nothing except
string contents. -/
def eraseStrings : JVal → JVal
  | .str _ => .str ""
  | .num n => .num n
  | .bool b => .bool b
  | .null => .null
  | .arr items => .arr (eraseStringsItems items)
  | .obj fields => .obj (eraseStringsFields fields)

def eraseStringsItems : List JVal → List JVal
  | [] => []
  | v :: rest => eraseStrings v :: eraseStringsItems rest

def eraseStringsFields : List (String × JVal) → List (String × JVal)
  | [] => []
  | f :: rest => (f.1, eraseStrings f.2) :: eraseStringsFields rest

end

/-! ## The Redis store model

The gateway keeps blacklist flags and rate counters in Redis.  We model
the keyspace as a partial map from string keys to values with an optional
absolute expiry time; all times are in seconds.  An entry whose expiry
has been reached behaves exactly like an absent key.
-/

inductive RVal where
  | str (s : String)
  | num (n : Nat)
deriving DecidableEq

structure REntry where
  val : RVal
  expiry : Option Nat
deriving DecidableEq

def RStore := String → Option REntry

def emptyStore : RStore := fun _ => none

/-- The entry stored under `k`, if it exists and has not expired. -/
def rlookup (now : Nat) (st : RStore) (k : String) : Option REntry :=
  match st k with
  | none => none
  | some e =>
    match e.expiry with
    | none => some e
    | some t => if now < t then some e else none

/-- Redis `GET`. -/
def rget (now : Nat) (st : RStore) (k : String) : Option RVal :=
  (rlookup now st k).map REntry.val

def rset (st : RStore) (k : String) (e : REntry) : RStore :=
  fun k2 => if k2 = k then some e else st k2

/-- Redis `INCR`: an absent (or expired) key becomes `1` with no TTL; a
live numeric key is incremented, keeping its TTL.  (`INCR` on a key that
holds a non-numeric string errors in Redis; the gateway never increments
such a key and no theorem below exercises that case, so it is folded into
the fresh-key branch.) -/
def rincr (now : Nat) (st : RStore) (k : String) : Nat × RStore :=
  match rlookup now st k with
  | some ⟨.num n, exp⟩ => (n + 1, rset st k ⟨.num (n + 1), exp⟩)
  | _ => (1, rset st k ⟨.num 1, none⟩)

/-- Redis `EXPIRE`: sets the TTL of a live key; no effect otherwise. -/
def rexpire (now : Nat) (st : RStore) (k : String) (seconds : Nat) : RStore :=
  match rlookup now st k with
  | none => st
  | some e => rset st k ⟨e.val, some (now + seconds)⟩

/-- Redis `SETEX`. -/
def rsetex (now : Nat) (st : RStore) (k : String) (ttl : Nat) (v : String) : RStore :=
  rset st k ⟨.str v, some (now + ttl)⟩

/-- Redis `TTL`: remaining seconds, `-1` for no expiry, `-2` for absent. -/
def rttl (now : Nat) (st : RStore) (k : String) : Int :=
  match rlookup now st k with
  | none => -2
  | some e =>
    match e.expiry with
    | none => -1
    | some t => (t : Int) - (now : Int)

/-! ## Rate limiting and blacklisting (`utils/redis.ts`) -/

structure RateLimitResult where
  allowed : Bool
  remaining : Nat
  resetTime : Int
deriving DecidableEq

/-- `incrementRateLimit`: `INCR`, and if this was the first count in the
window, `EXPIRE` the key to the window length; later increments do not
touch the TTL.  A store error is rethrown to the caller. -/
def incrementRateLimit (now : Nat) (k : String) (windowSeconds : Nat)
    (st : RStore) : Nat × RStore :=
  let r := rincr now st k
  if r.1 = 1 then (r.1, rexpire now r.2 k windowSeconds) else r

structure CheckRateOutcome where
  result : RateLimitResult
  store : RStore
  errorLogged : Bool

/-- `checkRateLimit`: derived from `incrementRateLimit` and `TTL`;
`allowed = current <= limit`.  The `storeUp` flag is false when the
backing store call throws: the catch branch logs the failure and returns
an allow-all result (fail open), leaving the store untouched.
(`Date.now()` millisecond scaling is dropped: all times are seconds.) -/
def checkRateLimit (storeUp : Bool) (now : Nat) (k : String)
    (limit windowSeconds : Nat) (st : RStore) : CheckRateOutcome :=
  if storeUp then
    let r := incrementRateLimit now k windowSeconds st
    { result :=
        { allowed := decide (r.1 ≤ limit)
          remaining := limit - r.1
          resetTime := (now : Int) + rttl now r.2 k }
      store := r.2
      errorLogged := false }
  else
    { result :=
        { allowed := true
          remaining := limit
          resetTime := (now : Int) + (windowSeconds : Int) }
      store := st
      errorLogged := true }

/-- `isTokenBlacklisted` (`utils/auth.ts`): returns the inner store
lookup, and on a store error logs it and returns `false` (the token is
allowed).  The pair is (result, errorLogged). -/
def isTokenBlacklisted (inner : Except Unit Bool) : Bool × Bool :=
  match inner with
  | .ok b => (b, false)
  | .error _ => (false, true)

/-! ## Key templates used by the gateway middleware -/

def blacklistIpKey (ip : String) : String := "blacklist:ip:" ++ ip

def suspiciousKey (ip : String) : String := "suspicious:" ++ ip

def sensitiveRateKey (ip path : String) : String :=
  "rate_limit:" ++ ip ++ ":" ++ path

def tokenBlacklistKey (token : String) : String := "blacklist:" ++ token

def userActiveKey (userId : String) : String := "user:" ++ userId ++ ":active"

/-! ## Security composite middleware (`middleware/security.ts`) -/

/-- The request data the security middleware inspects.  `requestData`
stands for `JSON.stringify({body: req.body, query: req.query, params:
req.params})`, the serialized form the detectors are applied to. -/
structure SecRequest where
  ip : String
  userAgent : String
  path : String
  method : String
  requestData : String
  body : JVal
  query : JVal
  contentLength : Nat
  ipHeaderCount : Nat

inductive SecResult where
  | blocked (status : Nat) (code : String)
  | proceed (body query : JVal)

/-- The HTTP status a security-middleware outcome responds with itself
(`none` when the request is passed on to the rest of the pipeline). -/
def SecResult.statusOf : SecResult → Option Nat
  | .blocked s _ => some s
  | .proceed _ _ => none

def suspiciousUserAgents : List String :=
  ["sqlmap", "nikto", "nmap", "masscan", "nessus",
   "openvas", "burpsuite", "owasp", "havij", "pangolin"]

def sensitiveEndpoints : List String :=
  ["/api/auth/login", "/api/auth/register", "/api/auth/forgot-password",
   "/api/payments", "/api/assemblies/vote"]

/-- `securityMiddleware`: the ordered checks 1-10 of the source, with
short-circuiting.  `blocked` is the middleware responding itself without
calling `next()`; `proceed` is `next()` with the sanitized body and query
attached (step 7, multiple IP headers, only logs and is therefore only a
counter in the request; step 10 sets response headers and removes server
headers, which do not affect control flow). -/
def securityMiddleware (now : Nat) (st : RStore) (req : SecRequest) :
    SecResult × RStore :=
  if (rget now st (blacklistIpKey req.ip)).isSome then
    (.blocked 403 "IP_BLACKLISTED", st)
  else if detectSQLInjection req.requestData then
    let r := rincr now st (suspiciousKey req.ip)
    let st2 := rexpire now r.2 (suspiciousKey req.ip) 3600
    let st3 :=
      if 5 ≤ r.1 then rsetex now st2 (blacklistIpKey req.ip) 86400 "sql_injection"
      else st2
    (.blocked 400 "INVALID_REQUEST", st3)
  else if detectXSS req.requestData then
    (.blocked 400 "INVALID_CONTENT", st)
  else if detectPathTraversal req.path || detectPathTraversal req.requestData then
    (.blocked 400 "INVALID_PATH", st)
  else if suspiciousUserAgents.any
      (fun agent => containsSub (toLowerStr req.userAgent) (toLowerStr agent)) then
    (.blocked 403 "SUSPICIOUS_USER_AGENT", st)
  else if 10 * 1024 * 1024 < req.contentLength then
    (.blocked 413 "PAYLOAD_TOO_LARGE", st)
  else if sensitiveEndpoints.any (fun e => startsWithStr req.path e) then
    let r := rincr now st (sensitiveRateKey req.ip req.path)
    let st2 := rexpire now r.2 (sensitiveRateKey req.ip req.path) 300
    if 10 < r.1 then (.blocked 429 "RATE_LIMIT_EXCEEDED", st2)
    else (.proceed (sanitizeObject req.body) (sanitizeObject req.query), st2)
  else
    (.proceed (sanitizeObject req.body) (sanitizeObject req.query), st)

/-! ## Authentication and authorization middleware (`middleware/auth.ts`) -/

structure JWTPayload where
  userId : String
  email : String
  role : String
  buildingId : Option String
  apartmentId : Option String
  permissions : List String
  iat : Nat
  exp : Nat
deriving DecidableEq

/-- The outcome of `jwt.verify` on a token: a decoded payload, a
`JsonWebTokenError` (malformed token or bad signature), or a
`TokenExpiredError`. -/
inductive VerifyOutcome where
  | ok (payload : JWTPayload)
  | jsonWebTokenError
  | tokenExpiredError
deriving DecidableEq

/-- `reject status code` is the middleware responding itself;
`accept user` is `next()` with `req.user = user` attached. -/
inductive AuthResult where
  | reject (status : Nat) (code : String)
  | accept (user : JWTPayload)
deriving DecidableEq

/-- The token extraction of `authMiddleware`: the header must start with
`Bearer `, and the token is `authHeader.substring(7)`. -/
def bearerToken (h : String) : Option String :=
  if startsWithStr h "Bearer " then some ⟨h.data.drop 7⟩ else none

/-- `authMiddleware`: extract the bearer token, check the token blacklist
BEFORE `jwt.verify`, verify, check that the user is still active, then
attach the payload and continue.  `verify` abstracts `jwt.verify` with
the `JWT_SECRET`.

The catch clause tests `error instanceof jwt.JsonWebTokenError` first,
and in the `jsonwebtoken` library `TokenExpiredError` is a subclass of
`JsonWebTokenError`, so an expired token also satisfies that first test:
both failure kinds are answered 401 `INVALID_TOKEN`, and the source`s
`TOKEN_EXPIRED` branch is unreachable dead code. -/
def authMiddleware (verify : String → VerifyOutcome) (now : Nat)
    (st : RStore) (authHeader : Option String) : AuthResult :=
  match authHeader with
  | none => .reject 401 "MISSING_TOKEN"
  | some h =>
    match bearerToken h with
    | none => .reject 401 "MISSING_TOKEN"
    | some token =>
      if (rget now st (tokenBlacklistKey token)).isSome then
        .reject 401 "TOKEN_BLACKLISTED"
      else
        match verify token with
        | .jsonWebTokenError => .reject 401 "INVALID_TOKEN"
        | .tokenExpiredError => .reject 401 "INVALID_TOKEN"
        | .ok decoded =>
          if (rget now st (userActiveKey decoded.userId)).isSome then
            .accept decoded
          else
            .reject 401 "USER_INACTIVE"

/-- `reject`/`next` outcome of the pure authorization middleware. -/
inductive MwResult where
  | reject (status : Nat) (code : String)
  | next
deriving DecidableEq

/-- `requireRole`. -/
def requireRole (allowedRoles : List String) (user : Option JWTPayload) :
    MwResult :=
  match user with
  | none => .reject 401 "NOT_AUTHENTICATED"
  | some u =>
    if allowedRoles.contains u.role then .next
    else .reject 403 "INSUFFICIENT_PERMISSIONS"

/-- `requirePermission` (`middleware/auth.ts`): a plain exact membership
test of the permission string in the principal`s permission list. -/
def requirePermission (permission : String) (user : Option JWTPayload) :
    MwResult :=
  match user with
  | none => .reject 401 "NOT_AUTHENTICATED"
  | some u =>
    if u.permissions.contains permission then .next
    else .reject 403 "MISSING_PERMISSION"

/-! ## Token utilities (`utils/auth.ts`, user-management service) -/

/-- The `TokenPayload` interface of `utils/auth.ts`, together with the
`type` claim (`"access"` or `"refresh"`) the sign/verify code reads. -/
structure TokenPayload where
  userId : String
  email : String
  role : String
  buildingId : Option String
  apartmentId : Option String
  permissions : List String
  iat : Nat
  exp : Nat
  tokenType : String
deriving DecidableEq

/-- The outcome of `jwt.verify` inside `verifyAccessToken` /
`verifyRefreshToken`. -/
inductive JwtOutcome where
  | ok (payload : TokenPayload)
  | badSignatureOrMalformed
  | expired
deriving DecidableEq

/-- `verifyAccessToken`: on any `jwt.verify` exception — expired token or
bad signature alike — the catch clause returns `null`; a decoded token
whose `type` is not `"access"` throws and is caught by the same clause. -/
def verifyAccessToken (outcome : JwtOutcome) : Option TokenPayload :=
  match outcome with
  | .ok decoded => if decoded.tokenType == "access" then some decoded else none
  | .badSignatureOrMalformed => none
  | .expired => none

/-- `verifyRefreshToken`: same shape, returning only userId and email. -/
def verifyRefreshToken (outcome : JwtOutcome) : Option (String × String) :=
  match outcome with
  | .ok decoded =>
    if decoded.tokenType == "refresh" then some (decoded.userId, decoded.email)
    else none
  | .badSignatureOrMalformed => none
  | .expired => none

/-- JavaScript `String.split(":")` on the character list. -/
def splitOnColon (s : List Char) : List (List Char) :=
  match s with
  | [] => [[]]
  | c :: rest =>
    if c == ':' then [] :: splitOnColon rest
    else
      match splitOnColon rest with
      | [] => [[c]]
      | g :: gs => (c :: g) :: gs

/-- JavaScript `Array.join(":")`. -/
def joinColon : List (List Char) → List Char
  | [] => []
  | [g] => g
  | g :: gs => g ++ ':' :: joinColon gs

/-- `hasPermission` (`utils/auth.ts`): the wildcard candidates checked by
the loop `for (i = parts.length; i > 0; i--)`:
`parts.slice(0, i).join(":") + ":*"`. -/
def wildcardCandidates (required : String) : List String :=
  let parts := splitOnColon required.data
  (List.range parts.length).map
    (fun k => ⟨joinColon (parts.take (k + 1)) ++ [':', '*']⟩)

/-- `hasPermission` (`utils/auth.ts`): exact membership, else a wildcard
candidate, else the catch-all `admin:*`. -/
def hasPermission (userPermissions : List String) (required : String) : Bool :=
  userPermissions.contains required
  || (wildcardCandidates required).any (fun w => userPermissions.contains w)
  || userPermissions.contains "admin:*"

/-- The wildcard-ancestor relation in the words of the specification
claim: a permission obtained from `p` by replacing a (possibly empty)
suffix of its colon-separated segments with `*`, walking from
most-specific to least-specific. -/
def specWildcardAncestors (p : String) : List String :=
  wildcardCandidates p

/-! ## The login route (`routes/auth.ts`, user-management service)

The handler`s collaborators are oracles: `findByEmail` is the user lookup
result, `passwordOk` the result of `verifyPassword(password,
user.password)`, `totpValid` the result of `speakeasy.totp.verify`, and
`issued` the pair produced by `generateTokens(user)`.
-/

structure AuthUser where
  id : String
  email : String
  name : String
  role : String
  buildingId : Option String
  apartmentNumber : Option String
  isActive : Bool
  emailVerified : Bool
  twoFactorEnabled : Bool
deriving DecidableEq

inductive LoginResponse where
  | failure (status : Nat) (code : String)
  | twoFactorRequired
  | success (accessToken refreshToken : String)
deriving DecidableEq

/-- The HTTP status of a login response (`twoFactorRequired` and
`success` are both 200 responses). -/
def LoginResponse.status : LoginResponse → Nat
  | .failure s _ => s
  | .twoFactorRequired => 200
  | .success _ _ => 200

/-- `router.post("/login")`: the branch structure of the handler. -/
def loginHandler (findByEmail : Option AuthUser) (passwordOk : Bool)
    (twoFactorCode : Option String) (totpValid : Bool)
    (issued : String × String) : LoginResponse :=
  match findByEmail with
  | none => .failure 401 "INVALID_CREDENTIALS"
  | some user =>
    if !user.isActive then .failure 401 "ACCOUNT_DISABLED"
    else if !passwordOk then .failure 401 "INVALID_CREDENTIALS"
    else if !user.emailVerified then .failure 401 "EMAIL_NOT_VERIFIED"
    else if user.twoFactorEnabled then
      match twoFactorCode with
      | none => .twoFactorRequired
      | some _ =>
        if !totpValid then .failure 401 "INVALID_2FA_CODE"
        else .success issued.1 issued.2
    else .success issued.1 issued.2

/-! ## Audit / compliance middleware (`middleware/audit.ts`)

The middleware computes classification flags, registers a `finish` hook,
and calls `next()` unconditionally.  The `finish` hook runs after the
response has been sent; it assembles the audit record and persists it,
each persistence call wrapped in its own `try/catch` whose catch clause
only logs.  `uuid`, `Date.now()` and `JSON.parse` of the response are
nondeterministic or external, so they enter the model as parameters.
-/

def PERSONAL_DATA_FIELDS : List String :=
  ["email", "phone", "cpf", "nif", "address", "name",
   "birthDate", "document", "bankAccount", "creditCard"]

def FINANCIAL_DATA_ENDPOINTS : List String :=
  ["/api/payments", "/api/finances", "/api/invoices", "/api/transactions"]

def GDPR_RELEVANT_ENDPOINTS : List String :=
  ["/api/users", "/api/residents", "/api/professionals",
   "/api/payments", "/api/communications", "/api/assemblies/votes"]

/-- `getActionFromEndpoint`: specific path actions first, then the
method map. -/
def getActionFromEndpoint (path method : String) : String :=
  if path == "/api/auth/login" then "login"
  else if path == "/api/auth/logout" then "logout"
  else if path == "/api/auth/register" then "register"
  else if path == "/api/payments" then "payment"
  else if path == "/api/assemblies/vote" then "vote"
  else if path == "/api/communications/send" then "send_message"
  else if method == "GET" then "READ"
  else if method == "POST" then "create"
  else if method == "PUT" then "update"
  else if method == "PATCH" then "update"
  else if method == "DELETE" then "delete"
  else "unknown"

def getResourceFromEndpoint (path : String) : String :=
  if startsWithStr path "/api/users" then "user"
  else if startsWithStr path "/api/buildings" then "building"
  else if startsWithStr path "/api/apartments" then "apartment"
  else if startsWithStr path "/api/payments" then "payment"
  else if startsWithStr path "/api/finances" then "finance"
  else if startsWithStr path "/api/assemblies" then "assembly"
  else if startsWithStr path "/api/communications" then "communication"
  else if startsWithStr path "/api/marketplace" then "marketplace"
  else if startsWithStr path "/api/professionals" then "professional"
  else if startsWithStr path "/api/security" then "security"
  else "unknown"

def extractDataAccessed (path : String) : List String :=
  (if containsSub path "users" || containsSub path "residents"
   then ["personal_data"] else [])
  ++ (if containsSub path "payments" || containsSub path "finances"
      then ["financial_data"] else [])
  ++ (if containsSub path "communications" || containsSub path "messages"
      then ["communication_data"] else [])
  ++ (if containsSub path "assemblies" && containsSub path "vote"
      then ["voting_data"] else [])

def getLegalBasis (path : String) (userRole : Option String) : String :=
  if startsWithStr path "/api/auth" then "contract"
  else if startsWithStr path "/api/payments" || startsWithStr path "/api/finances"
    then "contract"
  else if startsWithStr path "/api/communications" then "legitimate_interest"
  else if startsWithStr path "/api/assemblies" then "legal_obligation"
  else if userRole == some "ADMIN" then "legitimate_interest"
  else "consent"

def isAdministrativeAction (path method : String) : Bool :=
  ["/api/admin", "/api/users/admin", "/api/buildings/admin", "/api/system"].any
    (fun adminPath => startsWithStr path adminPath)
  || (method == "DELETE" && !(containsSub path "logout"))

def getPurposeFromAction (action : String) : String :=
  if action == "login" then "authentication"
  else if action == "register" then "account_creation"
  else if action == "payment" then "financial_transaction"
  else if action == "vote" then "democratic_participation"
  else if action == "send_message" then "communication"
  else if action == "read" then "service_provision"
  else if action == "update" then "data_maintenance"
  else if action == "delete" then "data_removal"
  else "service_provision"

def getRetentionPeriod (resource : String) : String :=
  if resource == "user" then "7_years"
  else if resource == "payment" then "10_years"
  else if resource == "communication" then "2_years"
  else if resource == "assembly" then "10_years"
  else if resource == "security" then "5_years"
  else "7_years"

def getTransactionType (endpoint : String) : String :=
  if containsSub endpoint "payment" then "payment"
  else if containsSub endpoint "refund" then "refund"
  else if containsSub endpoint "invoice" then "invoice"
  else "unknown"

def getActionSeverity (action : String) : String :=
  if action == "read" then "low"
  else if action == "create" then "medium"
  else if action == "update" then "medium"
  else if action == "delete" then "high"
  else if action == "login" then "low"
  else if action == "register" then "medium"
  else if action == "payment" then "high"
  else "medium"

/-- The `AuditLog` record of `middleware/audit.ts` (timestamps and the
duration in the model`s time unit). -/
structure AuditLog where
  id : String
  timestamp : Nat
  userId : Option String
  sessionId : String
  ip : String
  userAgent : String
  action : String
  resource : String
  method : String
  endpoint : String
  statusCode : Nat
  dataAccessed : List String
  personalDataAccessed : Bool
  financialDataAccessed : Bool
  gdprRelevant : Bool
  legalBasis : String
  duration : Nat
  errorMessage : Option String

/-- The request attributes the audit middleware reads.  `requestData`
stands for `JSON.stringify({...req.body, ...req.query, ...req.params})`. -/
structure AuditRequest where
  path : String
  method : String
  ip : String
  userAgent : String
  sessionId : String
  userId : Option String
  userRole : Option String
  requestData : String

/-- Assembling the audit record inside the `finish` hook.
`errorFromResponse` is the outcome of `getErrorFromResponse` (a
`JSON.parse` of the captured response body, abstracted as an input). -/
def buildAuditLog (req : AuditRequest) (auditId : String)
    (startTime endTime statusCode : Nat) (responseData : String)
    (errorFromResponse : Option String) : AuditLog :=
  let accessesPersonalData := PERSONAL_DATA_FIELDS.any
    (fun f => containsSub (toLowerStr req.requestData) (toLowerStr f))
  let responseHasPersonalData := PERSONAL_DATA_FIELDS.any
    (fun f => containsSub (toLowerStr responseData) (toLowerStr f))
  { id := auditId
    timestamp := endTime
    userId := req.userId
    sessionId := req.sessionId
    ip := req.ip
    userAgent := req.userAgent
    action := getActionFromEndpoint req.path req.method
    resource := getResourceFromEndpoint req.path
    method := req.method
    endpoint := req.path
    statusCode := statusCode
    dataAccessed := extractDataAccessed req.path
    personalDataAccessed := accessesPersonalData || responseHasPersonalData
    financialDataAccessed := FINANCIAL_DATA_ENDPOINTS.any
      (fun e => startsWithStr req.path e)
    gdprRelevant := GDPR_RELEVANT_ENDPOINTS.any
      (fun e => startsWithStr req.path e)
    legalBasis := getLegalBasis req.path req.userRole
    duration := endTime - startTime
    errorMessage := if 400 ≤ statusCode then errorFromResponse else none }

/-- The specialized GDPR sub-record written by `logGDPRAccess`. -/
structure GdprRecord where
  auditId : String
  userId : Option String
  action : String
  legalBasis : String
  dataCategories : List String
  purpose : String
  retention : String
  ip : String

/-- The specialized financial sub-record written by `logFinancialAccess`
(the `amount` field, a regex capture parsed with `parseFloat`, is outside
the model). -/
structure FinancialRecord where
  auditId : String
  userId : Option String
  action : String
  transactionType : String
  ip : String
  statusCode : Nat

/-- The specialized administrative sub-record written by
`logAdministrativeAction` (the `targetUserId` regex capture is outside
the model). -/
structure AdminRecord where
  auditId : String
  adminUserId : Option String
  action : String
  resource : String
  ip : String
  statusCode : Nat
  severity : String

/-- Observable events of the `finish` hook: persisted records and logged
persistence errors. -/
inductive AuditEvent where
  | savedAudit (log : AuditLog)
  | savedGdpr (record : GdprRecord)
  | savedFinancial (record : FinancialRecord)
  | savedAdmin (record : AdminRecord)
  | persistError (which : String)

/-- `saveAuditLog`: persist, or — when the store write throws — log the
error in the catch clause and return normally. -/
def saveAuditLog (storeFails : Bool) (log : AuditLog) : List AuditEvent :=
  if storeFails then [.persistError "audit"] else [.savedAudit log]

/-- `logGDPRAccess`: same `try/catch` shape. -/
def logGDPRAccess (storeFails : Bool) (log : AuditLog) : List AuditEvent :=
  if storeFails then [.persistError "gdpr"]
  else
    [.savedGdpr
      { auditId := log.id
        userId := log.userId
        action := log.action
        legalBasis := log.legalBasis
        dataCategories := log.dataAccessed
        purpose := getPurposeFromAction log.action
        retention := getRetentionPeriod log.resource
        ip := log.ip }]

/-- `logFinancialAccess`: same `try/catch` shape. -/
def logFinancialAccess (storeFails : Bool) (log : AuditLog) : List AuditEvent :=
  if storeFails then [.persistError "financial"]
  else
    [.savedFinancial
      { auditId := log.id
        userId := log.userId
        action := log.action
        transactionType := getTransactionType log.endpoint
        ip := log.ip
        statusCode := log.statusCode }]

/-- `logAdministrativeAction`: same `try/catch` shape. -/
def logAdministrativeAction (storeFails : Bool) (log : AuditLog) : List AuditEvent :=
  if storeFails then [.persistError "admin"]
  else
    [.savedAdmin
      { auditId := log.id
        adminUserId := log.userId
        action := log.action
        resource := log.resource
        ip := log.ip
        statusCode := log.statusCode
        severity := getActionSeverity log.action }]

/-- The `finish` hook: the main record always, then the three specialized
records under their source conditions. -/
def auditFinish (req : AuditRequest) (log : AuditLog)
    (mainFails gdprFails finFails adminFails : Bool) : List AuditEvent :=
  saveAuditLog mainFails log
  ++ (if log.personalDataAccessed && log.gdprRelevant
      then logGDPRAccess gdprFails log else [])
  ++ (if log.financialDataAccessed
      then logFinancialAccess finFails log else [])
  ++ (if isAdministrativeAction req.path req.method
      then logAdministrativeAction adminFails log else [])

structure AuditOutcome where
  nextInvoked : Bool
  clientStatus : Nat
  events : List AuditEvent

/-- `auditMiddleware`: registers the `finish` hook and calls `next()`
unconditionally; the hook runs after the response (with
`downstreamStatus`) has been produced by the rest of the pipeline and can
only append events. -/
def auditMiddleware (req : AuditRequest) (auditId : String)
    (startTime endTime downstreamStatus : Nat) (responseData : String)
    (errorFromResponse : Option String)
    (mainFails gdprFails finFails adminFails : Bool) : AuditOutcome :=
  let log := buildAuditLog req auditId startTime endTime downstreamStatus
    responseData errorFromResponse
  { nextInvoked := true
    clientStatus := downstreamStatus
    events := auditFinish req log mainFails gdprFails finFails adminFails }

/-- Iterated calls of `checkRateLimit` for one key at the given times:
the list of per-call results and the final store. -/
def rateLimitSeq (k : String) (limit w : Nat) :
    List Nat → RStore → List RateLimitResult × RStore
  | [], st => ([], st)
  | t :: ts, st =>
    let o := checkRateLimit true t k limit w st
    let rest := rateLimitSeq k limit w ts o.store
    (o.result :: rest.1, rest.2)

/-- The store after running the security middleware once per listed time,
each time on the same request. -/
def runSecuritySeq (req : SecRequest) : List Nat → RStore → RStore
  | [], st => st
  | t :: ts, st => runSecuritySeq req ts (securityMiddleware t st req).2

/-- The store after running the security middleware over a trace of
timed requests. -/
def runSecurityTrace : List (Nat × SecRequest) → RStore → RStore
  | [], st => st
  | (t, r) :: rest, st => runSecurityTrace rest (securityMiddleware t st r).2

/-- A concrete, benign login request against the sensitive endpoint
`/api/auth/login` (its serialized data triggers none of the attack
detectors). -/
def loginAttemptReq : SecRequest :=
  { ip := "198.51.100.9"
    userAgent := "Mozilla/5.0"
    path := "/api/auth/login"
    method := "POST"
    requestData := "login-attempt"
    body := .obj [("email", .str "a@b.pt"), ("password", .str "wrong")]
    query := .obj []
    contentLength := 64
    ipHeaderCount := 0 }

/-- A concrete request whose serialized data (a single quote) trips the
SQL-injection detector. -/
def attackReq : SecRequest :=
  { ip := "203.0.113.7"
    userAgent := "curl/8.0"
    path := "/api/users"
    method := "GET"
    requestData := "\x27"
    body := .null
    query := .obj []
    contentLength := 10
    ipHeaderCount := 0 }

/-- Structural induction principle for `JVal` with membership hypotheses
for the nested lists. -/
def JVal.indOn {P : JVal → Prop}
    (hstr : ∀ s, P (.str s)) (hnum : ∀ n, P (.num n))
    (hbool : ∀ b, P (.bool b)) (hnull : P .null)
    (harr : ∀ items, (∀ v ∈ items, P v) → P (.arr items))
    (hobj : ∀ fields, (∀ f ∈ fields, P f.2) → P (.obj fields)) :
    ∀ v, P v
  | .str s => hstr s
  | .num n => hnum n
  | .bool b => hbool b
  | .null => hnull
  | .arr items =>
    harr items (fun v hv => JVal.indOn hstr hnum hbool hnull harr hobj v)
  | .obj fields =>
    hobj fields (fun f hf => JVal.indOn hstr hnum hbool hnull harr hobj f.2)
termination_by v => sizeOf v
decreasing_by
  · have h1 := List.sizeOf_lt_of_mem hv
    simp only [JVal.arr.sizeOf_spec]
    omega
  · have h1 := List.sizeOf_lt_of_mem hf
    have h2 : sizeOf f.2 < sizeOf f := by
      cases f with
      | mk a b =>
        simp only [Prod.mk.sizeOf_spec]
        omega
    simp only [JVal.obj.sizeOf_spec]
    omega

/-! # Theorems -/

/-! Helper lemmas for the sanitizer (claim C10). -/

theorem stripGo_subset (pat : List Char) :
    ∀ (skip : Nat) (s : List Char), stripGo pat skip s ⊆ s := by
  intro skip s
  induction s generalizing skip with
  | nil =>
    intro x hx
    cases skip <;> exact absurd hx (by simp [stripGo])
  | cons c rest ih =>
    intro x hx
    cases skip with
    | succ n =>
      exact List.mem_cons.mpr (Or.inr (ih n hx))
    | zero =>
      simp only [stripGo] at hx
      split at hx
      · exact List.mem_cons.mpr (Or.inr (ih _ hx))
      · rcases List.mem_cons.mp hx with h | h
        · exact List.mem_cons.mpr (Or.inl h)
        · exact List.mem_cons.mpr (Or.inr (ih 0 h))

theorem stripAllCI_subset (pat : List Char) (s : List Char) :
    stripAllCI pat s ⊆ s :=
  stripGo_subset pat 0 s

theorem trimChars_subset (s : List Char) : trimChars s ⊆ s := by
  intro x hx
  simp only [trimChars, List.mem_reverse] at hx
  have h1 : x ∈ (List.dropWhile isJsWs s).reverse := List.dropWhile_subset _ hx
  rw [List.mem_reverse] at h1
  exact List.dropWhile_subset _ h1

theorem sanitizeString_no_angle (s : String) :
    '<' ∉ (sanitizeString s).data ∧ '>' ∉ (sanitizeString s).data := by
  constructor <;> intro hmem <;>
  · have h1 := trimChars_subset _ hmem
    have h2 := stripAllCI_subset _ _ h1
    have h3 := stripAllCI_subset _ _ h2
    have h4 := List.mem_filter.mp h3
    simp at h4

theorem sanitizeItems_strings (l : List JVal)
    (hl : ∀ v ∈ l, ∀ s ∈ stringsOf (sanitizeObject v),
      '<' ∉ s.data ∧ '>' ∉ s.data) :
    ∀ s ∈ stringsOfItems (sanitizeItems l),
      '<' ∉ s.data ∧ '>' ∉ s.data := by
  induction l with
  | nil => simp [sanitizeItems, stringsOfItems]
  | cons v rest ihl =>
    intro s hs
    simp only [sanitizeItems, stringsOfItems, List.mem_append] at hs
    rcases hs with h | h
    · exact hl v (by simp) s h
    · exact ihl (fun u hu => hl u (by simp [hu])) s h

theorem sanitizeFields_strings (l : List (String × JVal))
    (hl : ∀ f ∈ l, ∀ s ∈ stringsOf (sanitizeObject f.2),
      '<' ∉ s.data ∧ '>' ∉ s.data) :
    ∀ s ∈ stringsOfFields (sanitizeFields l),
      '<' ∉ s.data ∧ '>' ∉ s.data := by
  induction l with
  | nil => simp [sanitizeFields, stringsOfFields]
  | cons f rest ihl =>
    intro s hs
    simp only [sanitizeFields, stringsOfFields, List.mem_append] at hs
    rcases hs with h | h
    · exact hl f (by simp) s h
    · exact ihl (fun u hu => hl u (by simp [hu])) s h

theorem sanitizeItems_erase (l : List JVal)
    (hl : ∀ v ∈ l, eraseStrings (sanitizeObject v) = eraseStrings v) :
    eraseStringsItems (sanitizeItems l) = eraseStringsItems l := by
  induction l with
  | nil => rfl
  | cons v rest ihl =>
    simp only [sanitizeItems, eraseStringsItems]
    rw [hl v (by simp), ihl (fun u hu => hl u (by simp [hu]))]

theorem sanitizeFields_erase (l : List (String × JVal))
    (hl : ∀ f ∈ l, eraseStrings (sanitizeObject f.2) = eraseStrings f.2) :
    eraseStringsFields (sanitizeFields l) = eraseStringsFields l := by
  induction l with
  | nil => rfl
  | cons f rest ihl =>
    simp only [sanitizeFields, eraseStringsFields]
    rw [hl f (by simp), ihl (fun u hu => hl u (by simp [hu]))]

/-- C10: after the security middleware`s recursive sanitization, every
string reachable through the value (also inside nested arrays and
objects) contains neither `<` nor `>`, and everything except string
contents — structure, keys, and non-string leaf values — is unchanged. -/
theorem C10_sanitization_invariant :
    ∀ v : JVal,
      (∀ s ∈ stringsOf (sanitizeObject v), '<' ∉ s.data ∧ '>' ∉ s.data)
      ∧ eraseStrings (sanitizeObject v) = eraseStrings v := by
  refine JVal.indOn ?_ ?_ ?_ ?_ ?_ ?_
  · intro s
    refine ⟨?_, rfl⟩
    intro s2 hs2
    simp only [sanitizeObject, stringsOf, List.mem_singleton] at hs2
    subst hs2
    exact sanitizeString_no_angle s
  · exact fun n => ⟨by simp [sanitizeObject, stringsOf], rfl⟩
  · exact fun b => ⟨by simp [sanitizeObject, stringsOf], rfl⟩
  · exact ⟨by simp [sanitizeObject, stringsOf], rfl⟩
  · intro items ih
    constructor
    · intro s hs
      simp only [sanitizeObject, stringsOf] at hs
      exact sanitizeItems_strings items (fun v hv => (ih v hv).1) s hs
    · simp only [sanitizeObject, eraseStrings]
      rw [sanitizeItems_erase items (fun v hv => (ih v hv).2)]
  · intro fields ih
    constructor
    · intro s hs
      simp only [sanitizeObject, stringsOf] at hs
      exact sanitizeFields_strings fields (fun f hf => (ih f hf).1) s hs
    · simp only [sanitizeObject, eraseStrings]
      rw [sanitizeFields_erase fields (fun f hf => (ih f hf).2)]

/-- C10 witness: the statement applied to a concrete value. -/
theorem C10_sanitization_witness :
    "scriptx" ∈ stringsOf (sanitizeObject (.str "<script>x"))
    ∧ '<' ∉ "scriptx".data ∧ '>' ∉ "scriptx".data :=
  ⟨by
    have h : sanitizeString "<script>x" = "scriptx" := by decide
    simp [sanitizeObject, stringsOf, h],
   (C10_sanitization_invariant (.str "<script>x")).1 "scriptx"
     (by
       have h : sanitizeString "<script>x" = "scriptx" := by decide
       simp [sanitizeObject, stringsOf, h])⟩

/-- C8: the attack-signature detectors classify an input containing
`' OR '1'='1` as SQL-injection-like, an input containing
`<script>alert(1)</script>` as XSS-like, and an input containing
`../../etc/passwd` as path-traversal-like, while `hello world` is
classified by all three detectors as not an attack. -/
theorem C8_attack_detector_classification :
    detectSQLInjection "\x27 OR \x271\x27=\x271" = true
    ∧ detectXSS "<script>alert(1)</script>" = true
    ∧ detectPathTraversal "../../etc/passwd" = true
    ∧ detectSQLInjection "hello world" = false
    ∧ detectXSS "hello world" = false
    ∧ detectPathTraversal "hello world" = false := by
  refine ⟨?_, ?_, ?_, ?_, ?_, ?_⟩ <;> decide

/-- C6 counterexample: `verifyAccessToken` and `verifyRefreshToken`
return `null` both for an expired token and for a bad signature — the two
failure kinds are collapsed into the same `none`, not distinguishable by
the caller. -/
theorem C6_counterexample :
    verifyAccessToken .expired = verifyAccessToken .badSignatureOrMalformed
    ∧ verifyAccessToken .expired = none
    ∧ verifyRefreshToken .expired = verifyRefreshToken .badSignatureOrMalformed
    ∧ verifyRefreshToken .expired = none :=
  ⟨rfl, rfl, rfl, rfl⟩

/-- C6 amended: `verifyAccessToken` and `verifyRefreshToken` collapse
expired and malformed/bad-signature tokens into the same `null` result,
and the gateway`s `authMiddleware` collapses them too: because
`TokenExpiredError` subclasses `JsonWebTokenError` and the catch clause
tests `instanceof JsonWebTokenError` first, both failure kinds are
answered 401 `INVALID_TOKEN` — no caller can distinguish an expired
token from a bad signature (the source`s `TOKEN_EXPIRED` branch is dead
code). -/
theorem C6_amended_error_kinds :
    (verifyAccessToken .expired = none
     ∧ verifyAccessToken .badSignatureOrMalformed = none
     ∧ verifyRefreshToken .expired = none
     ∧ verifyRefreshToken .badSignatureOrMalformed = none)
    ∧ (∀ (now : Nat) (st : RStore) (h token : String),
        bearerToken h = some token →
        rget now st (tokenBlacklistKey token) = none →
        authMiddleware (fun _ => .tokenExpiredError) now st (some h)
            = .reject 401 "INVALID_TOKEN"
        ∧ authMiddleware (fun _ => .jsonWebTokenError) now st (some h)
            = authMiddleware (fun _ => .tokenExpiredError) now st (some h)) := by
  refine ⟨⟨rfl, rfl, rfl, rfl⟩, ?_⟩
  intro now st h token hb hbl
  constructor <;> simp [authMiddleware, hb, hbl]

/-- C6 witness: the amended statement applied to a concrete header,
token and empty store — an expired token is answered 401
`INVALID_TOKEN`, the same response a bad signature gets. -/
theorem C6_amended_witness :
    bearerToken "Bearer tok1" = some "tok1"
    ∧ rget 0 emptyStore (tokenBlacklistKey "tok1") = none
    ∧ authMiddleware (fun _ => .tokenExpiredError) 0 emptyStore
        (some "Bearer tok1") = .reject 401 "INVALID_TOKEN"
    ∧ authMiddleware (fun _ => .jsonWebTokenError) 0 emptyStore
        (some "Bearer tok1")
      = authMiddleware (fun _ => .tokenExpiredError) 0 emptyStore
          (some "Bearer tok1") :=
  ⟨by decide, rfl,
   (C6_amended_error_kinds.2 0 emptyStore "Bearer tok1" "tok1"
      (by decide) rfl).1,
   (C6_amended_error_kinds.2 0 emptyStore "Bearer tok1" "tok1"
      (by decide) rfl).2⟩

/-- C2: the authentication middleware checks the token blacklist before
`jwt.verify` — a blacklisted token is rejected with `TOKEN_BLACKLISTED`
for EVERY verifier, in particular one for which signature verification
succeeds — and the request reaches the downstream handler (an `accept`
result, the only one that attaches a Principal) exactly when the token is
not blacklisted, verification succeeds, and the user is still active; a
missing token is rejected with `MISSING_TOKEN`. -/
theorem C2_auth_blacklist_precedence (verify : String → VerifyOutcome)
    (now : Nat) (st : RStore) (h token : String)
    (hb : bearerToken h = some token) :
    ((rget now st (tokenBlacklistKey token)).isSome = true →
      authMiddleware verify now st (some h) = .reject 401 "TOKEN_BLACKLISTED")
    ∧ (∀ u : JWTPayload,
        authMiddleware verify now st (some h) = .accept u ↔
          ((rget now st (tokenBlacklistKey token)).isSome = false
           ∧ verify token = .ok u
           ∧ (rget now st (userActiveKey u.userId)).isSome = true))
    ∧ authMiddleware verify now st none = .reject 401 "MISSING_TOKEN" := by
  refine ⟨?_, ?_, rfl⟩
  · intro hbl
    simp [authMiddleware, hb, hbl]
  · intro u
    cases hbl : (rget now st (tokenBlacklistKey token)).isSome
    · cases hv : verify token with
      | ok p =>
        cases hact : (rget now st (userActiveKey p.userId)).isSome
        · simp only [authMiddleware, hb, hbl, hv]
          constructor
          · intro heq
            simp [hact] at heq
          · rintro ⟨-, hpu, hu⟩
            cases hpu
            rw [hact] at hu
            cases hu
        · simp only [authMiddleware, hb, hbl, hv, hact]
          constructor
          · intro heq
            simp only [Bool.true_eq_false, if_true] at heq
            cases heq
            exact ⟨by simp [hbl], rfl, hact⟩
          · rintro ⟨-, hpu, -⟩
            cases hpu
            simp [hact]
      | jsonWebTokenError =>
        simp [authMiddleware, hb, hbl, hv]
      | tokenExpiredError =>
        simp [authMiddleware, hb, hbl, hv]
    · simp [authMiddleware, hb, hbl]

/-- C2 witness: a token that is blacklisted in the store, with a verifier
for which signature verification would succeed, is rejected with
`TOKEN_BLACKLISTED`. -/
theorem C2_auth_witness :
    bearerToken "Bearer t7" = some "t7"
    ∧ (rget 3 (rset emptyStore (tokenBlacklistKey "t7") ⟨.str "true", none⟩)
        (tokenBlacklistKey "t7")).isSome = true
    ∧ authMiddleware
        (fun _ => .ok { userId := "u7", email := "m@c.pt", role := "MORADOR",
                        buildingId := none, apartmentId := none,
                        permissions := [], iat := 0, exp := 99 })
        3 (rset emptyStore (tokenBlacklistKey "t7") ⟨.str "true", none⟩)
        (some "Bearer t7") = .reject 401 "TOKEN_BLACKLISTED" :=
  ⟨by decide, rfl,
   (C2_auth_blacklist_precedence
      (fun _ => .ok { userId := "u7", email := "m@c.pt", role := "MORADOR",
                      buildingId := none, apartmentId := none,
                      permissions := [], iat := 0, exp := 99 })
      3 (rset emptyStore (tokenBlacklistKey "t7") ⟨.str "true", none⟩)
      "Bearer t7" "t7" (by decide)).1 rfl⟩

/-- C1 counterexample: a principal holding exactly `financial:*` — a
wildcard ancestor of `financial:read` in the claim`s sense — is rejected
by the gateway middleware `requirePermission("financial:read")` with
code `MISSING_PERMISSION`, because that middleware tests only exact
membership. -/
theorem C1_counterexample :
    "financial:*" ∈ specWildcardAncestors "financial:read"
    ∧ requirePermission "financial:read"
        (some { userId := "u1", email := "s@condo.pt", role := "SINDICO",
                buildingId := none, apartmentId := none,
                permissions := ["financial:*"], iat := 0, exp := 100 })
        = .reject 403 "MISSING_PERMISSION" := by
  exact ⟨by decide, by decide⟩

/-- C1 amended: the gateway middleware `requirePermission(p)` succeeds
exactly when the principal`s permission list contains the exact string
`p`, rejecting with `MISSING_PERMISSION` otherwise; the wildcard-ancestor
semantics is implemented by the utility `hasPermission`, which succeeds
exactly when the list contains exact `p`, or one of the wildcard
candidates `parts.slice(0, i).join(":") + ":*"` (walking `i` from
most-specific to least-specific), or the catch-all `admin:*`; in
particular `financial:*` satisfies `financial:read` and `financial:pay`
but not `security:read` under `hasPermission`. -/
theorem C1_amended_permission_matching :
    (∀ (u : JWTPayload) (p : String),
        requirePermission p (some u) = .next ↔ p ∈ u.permissions)
    ∧ (∀ (perms : List String) (p : String),
        hasPermission perms p = true ↔
          (p ∈ perms ∨ (∃ w ∈ wildcardCandidates p, w ∈ perms)
           ∨ "admin:*" ∈ perms))
    ∧ hasPermission ["financial:*"] "financial:read" = true
    ∧ hasPermission ["financial:*"] "financial:pay" = true
    ∧ hasPermission ["financial:*"] "security:read" = false := by
  refine ⟨?_, ?_, by decide, by decide, by decide⟩
  · intro u p
    by_cases hm : p ∈ u.permissions
    · have hc : u.permissions.contains p = true := List.elem_iff.mpr hm
      simp [requirePermission, hc, hm]
    · have hc : u.permissions.contains p = false := by
        cases h2 : u.permissions.contains p
        · rfl
        · exact absurd (List.elem_iff.mp h2) hm
      simp [requirePermission, hc, hm]
  · intro perms p
    simp only [hasPermission, Bool.or_eq_true, List.any_eq_true]
    constructor
    · rintro ((h | h) | h)
      · exact Or.inl (List.elem_iff.mp h)
      · rcases h with ⟨w, hw, hmem⟩
        exact Or.inr (Or.inl ⟨w, hw, List.elem_iff.mp hmem⟩)
      · exact Or.inr (Or.inr (List.elem_iff.mp h))
    · rintro (h | ⟨w, hw, hmem⟩ | h)
      · exact Or.inl (Or.inl (List.elem_iff.mpr h))
      · exact Or.inl (Or.inr ⟨w, hw, List.elem_iff.mpr hmem⟩)
      · exact Or.inr (List.elem_iff.mpr h)

/-- C7: whenever the backing store operation fails, `checkRateLimit`
fails open — the request is allowed with the full remaining quota, the
store is untouched — and `isTokenBlacklisted` returns `false`; in both
cases the failure is logged and not propagated as an error. -/
theorem C7_store_failure_policy (now : Nat) (k : String) (limit w : Nat)
    (st : RStore) :
    (checkRateLimit false now k limit w st).result.allowed = true
    ∧ (checkRateLimit false now k limit w st).result.remaining = limit
    ∧ (checkRateLimit false now k limit w st).errorLogged = true
    ∧ (checkRateLimit false now k limit w st).store = st
    ∧ isTokenBlacklisted (.error ()) = (false, true) := by
  refine ⟨rfl, rfl, rfl, rfl, rfl⟩

/-- C9: the audit middleware invokes the downstream handler on every
request, never changes the response the client receives, and a failing
persistence call is caught and logged (the `persistError` event) rather
than propagated. -/
theorem C9_audit_nonblocking (req : AuditRequest) (auditId : String)
    (startTime endTime downstreamStatus : Nat) (responseData : String)
    (errorFromResponse : Option String)
    (mainFails gdprFails finFails adminFails : Bool) :
    (auditMiddleware req auditId startTime endTime downstreamStatus
        responseData errorFromResponse mainFails gdprFails finFails
        adminFails).nextInvoked = true
    ∧ (auditMiddleware req auditId startTime endTime downstreamStatus
        responseData errorFromResponse mainFails gdprFails finFails
        adminFails).clientStatus = downstreamStatus
    ∧ (mainFails = true →
        AuditEvent.persistError "audit"
          ∈ (auditMiddleware req auditId startTime endTime downstreamStatus
              responseData errorFromResponse mainFails gdprFails finFails
              adminFails).events) := by
  refine ⟨rfl, rfl, fun hm => ?_⟩
  simp [auditMiddleware, auditFinish, saveAuditLog, hm]

/-- C9 witness: the statement applied to a concrete request whose main
persistence call fails. -/
theorem C9_audit_nonblocking_witness :
    (auditMiddleware
        { path := "/api/users/42", method := "DELETE", ip := "ipA",
          userAgent := "ua", sessionId := "s1", userId := some "adm",
          userRole := some "ADMIN", requestData := "rd" }
        "audit-1" 0 5 200 "resp" none true false false false).nextInvoked
      = true
    ∧ AuditEvent.persistError "audit"
        ∈ (auditMiddleware
            { path := "/api/users/42", method := "DELETE", ip := "ipA",
              userAgent := "ua", sessionId := "s1", userId := some "adm",
              userRole := some "ADMIN", requestData := "rd" }
            "audit-1" 0 5 200 "resp" none true false false false).events :=
  ⟨(C9_audit_nonblocking
      { path := "/api/users/42", method := "DELETE", ip := "ipA",
        userAgent := "ua", sessionId := "s1", userId := some "adm",
        userRole := some "ADMIN", requestData := "rd" }
      "audit-1" 0 5 200 "resp" none true false false false).1,
   (C9_audit_nonblocking
      { path := "/api/users/42", method := "DELETE", ip := "ipA",
        userAgent := "ua", sessionId := "s1", userId := some "adm",
        userRole := some "ADMIN", requestData := "rd" }
      "audit-1" 0 5 200 "resp" none true false false false).2.2 rfl⟩

/-! Helper lemmas for `checkRateLimit` (claim C3). -/

/-- One `checkRateLimit` call on a live numeric counter `c ≥ 1` whose
window expires at `e`: the count becomes `c + 1`, the TTL is untouched,
and the call is allowed exactly when `c + 1 ≤ limit`. -/
theorem checkRateLimit_live_step (k : String) (limit w : Nat) (t c e : Nat)
    (st : RStore) (hc : 0 < c) (hk : st k = some ⟨.num c, some e⟩)
    (ht : t < e) :
    checkRateLimit true t k limit w st
      = { result := { allowed := decide (c + 1 ≤ limit)
                      remaining := limit - (c + 1)
                      resetTime := (e : Int) }
          store := rset st k ⟨.num (c + 1), some e⟩
          errorLogged := false } := by
  have hlive : rlookup t st k = some ⟨.num c, some e⟩ := by
    simp [rlookup, hk, ht]
  have hne : ¬(c + 1 = 1) := by omega
  have hlive2 : rlookup t (rset st k ⟨.num (c + 1), some e⟩) k
      = some ⟨.num (c + 1), some e⟩ := by
    simp [rlookup, rset, ht]
  simp only [checkRateLimit, if_true, incrementRateLimit, rincr, hlive,
    hne, if_false, rttl, hlive2]
  refine congrArg (fun x => CheckRateOutcome.mk x _ _) ?_
  refine congrArg (fun x => RateLimitResult.mk _ _ x) ?_
  omega

/-- One `checkRateLimit` call on an absent (or expired) key: the count
restarts at 1 and the TTL becomes the window length. -/
theorem checkRateLimit_fresh_step (k : String) (limit w : Nat) (hw : 0 < w)
    (t : Nat) (st : RStore) (hfresh : rlookup t st k = none) :
    checkRateLimit true t k limit w st
      = { result := { allowed := decide (1 ≤ limit)
                      remaining := limit - 1
                      resetTime := ((t + w : Nat) : Int) }
          store := rset (rset st k ⟨.num 1, none⟩) k ⟨.num 1, some (t + w)⟩
          errorLogged := false } := by
  have h1 : rlookup t (rset st k ⟨.num 1, none⟩) k = some ⟨.num 1, none⟩ := by
    simp [rlookup, rset]
  have h2 : rlookup t (rset (rset st k ⟨.num 1, none⟩) k
      ⟨.num 1, some (t + w)⟩) k = some ⟨.num 1, some (t + w)⟩ := by
    simp [rlookup, rset]
    omega
  simp only [checkRateLimit, if_true, incrementRateLimit, rincr, hfresh,
    rexpire, h1, rttl, h2]
  refine congrArg (fun x => CheckRateOutcome.mk x _ _) ?_
  refine congrArg (fun x => RateLimitResult.mk _ _ x) ?_
  omega

/-- Running a sequence of calls against a live counter `c ≥ 1` expiring
at `e`, all within the window: the final count is `c` plus the number of
calls, and the `i`-th call is allowed exactly when `c + i + 1 ≤ limit`. -/
theorem rateLimitSeq_live (k : String) (limit w e : Nat) :
    ∀ (ts : List Nat) (st : RStore) (c : Nat),
      0 < c →
      st k = some ⟨.num c, some e⟩ →
      (∀ t ∈ ts, t < e) →
      (rateLimitSeq k limit w ts st).2 k
          = some ⟨.num (c + ts.length), some e⟩
      ∧ ∀ i (hi : i < (rateLimitSeq k limit w ts st).1.length),
          (rateLimitSeq k limit w ts st).1.get ⟨i, hi⟩
            = { allowed := decide (c + i + 1 ≤ limit)
                remaining := limit - (c + i + 1)
                resetTime := (e : Int) } := by
  intro ts
  induction ts with
  | nil =>
    intro st c hc hk hts
    refine ⟨by simpa [rateLimitSeq] using hk, ?_⟩
    intro i hi
    simp [rateLimitSeq] at hi
  | cons t ts ih =>
    intro st c hc hk hts
    have hstep := checkRateLimit_live_step k limit w t c e st hc hk
      (hts t (by simp))
    have hnext := ih (rset st k ⟨.num (c + 1), some e⟩) (c + 1) (by omega)
      (by simp [rset]) (fun t2 ht2 => hts t2 (by simp [ht2]))
    constructor
    · have h1 := hnext.1
      have h2 : c + 1 + ts.length = c + (t :: ts).length := by
        simp
        omega
      rw [h2] at h1
      simpa [rateLimitSeq, hstep] using h1
    · intro i hi
      match i with
      | 0 =>
        simp [rateLimitSeq, hstep]
      | j + 1 =>
        have hi2 : j < (rateLimitSeq k limit w ts
            (rset st k ⟨.num (c + 1), some e⟩)).1.length := by
          have := hi
          simp [rateLimitSeq, hstep] at this
          simpa using this
        have h3 := hnext.2 j hi2
        have h4 : (rateLimitSeq k limit w (t :: ts) st).1.get ⟨j + 1, hi⟩
            = (rateLimitSeq k limit w ts
                (rset st k ⟨.num (c + 1), some e⟩)).1.get ⟨j, hi2⟩ := by
          simp [rateLimitSeq, hstep]
        rw [h4, h3]
        have h5 : c + 1 + j + 1 = c + (j + 1) + 1 := by omega
        rw [h5]

/-- C3: for a fresh key, `checkRateLimit(key, N, W)` allows exactly the
calls whose incremented count stays at or below `N` — so the first `N`
calls within the window are allowed and the `(N+1)`-th is not — the
first increment sets the TTL to `W`, and once the window has elapsed the
count restarts from zero (the next call counts `1` and runs in a fresh
window). -/
theorem C3_rate_limit_window (k : String) (limit w : Nat) (hw : 0 < w)
    (t1 : Nat) (ts : List Nat) (st : RStore) (hfresh : st k = none)
    (hts : ∀ t ∈ ts, t1 ≤ t ∧ t < t1 + w) :
    (∀ i (hi : i < (rateLimitSeq k limit w (t1 :: ts) st).1.length),
        ((rateLimitSeq k limit w (t1 :: ts) st).1.get ⟨i, hi⟩).allowed
          = decide (i + 1 ≤ limit))
    ∧ (rateLimitSeq k limit w (t1 :: ts) st).2 k
        = some ⟨.num (1 + ts.length), some (t1 + w)⟩
    ∧ (∀ t2, t1 + w ≤ t2 →
        (checkRateLimit true t2 k limit w
            (rateLimitSeq k limit w (t1 :: ts) st).2).result
          = { allowed := decide (1 ≤ limit)
              remaining := limit - 1
              resetTime := ((t2 + w : Nat) : Int) }) := by
  have hfresh1 : rlookup t1 st k = none := by
    simp [rlookup, hfresh]
  have hstep := checkRateLimit_fresh_step k limit w hw t1 st hfresh1
  have hkey : (rset (rset st k ⟨.num 1, none⟩) k ⟨.num 1, some (t1 + w)⟩) k
      = some ⟨.num 1, some (t1 + w)⟩ := by
    simp [rset]
  have hnext := rateLimitSeq_live k limit w (t1 + w) ts
    (rset (rset st k ⟨.num 1, none⟩) k ⟨.num 1, some (t1 + w)⟩) 1
    (by omega) hkey (fun t2 ht2 => (hts t2 ht2).2)
  refine ⟨?_, ?_, ?_⟩
  · intro i hi
    match i with
    | 0 =>
      simp [rateLimitSeq, hstep]
    | j + 1 =>
      have hi2 : j < (rateLimitSeq k limit w ts
          (rset (rset st k ⟨.num 1, none⟩) k
            ⟨.num 1, some (t1 + w)⟩)).1.length := by
        have := hi
        simp [rateLimitSeq, hstep] at this
        simpa using this
      have h4 : (rateLimitSeq k limit w (t1 :: ts) st).1.get ⟨j + 1, hi⟩
          = (rateLimitSeq k limit w ts
              (rset (rset st k ⟨.num 1, none⟩) k
                ⟨.num 1, some (t1 + w)⟩)).1.get ⟨j, hi2⟩ := by
        simp [rateLimitSeq, hstep]
      rw [h4, hnext.2 j hi2]
      have h5 : (1 + j + 1 ≤ limit) = (j + 1 + 1 ≤ limit) := by
        refine congrArg (fun x => x ≤ limit) ?_
        omega
      simp [h5]
  · have h1 := hnext.1
    simpa [rateLimitSeq, hstep] using h1
  · intro t2 ht2
    have hdead : rlookup t2 (rateLimitSeq k limit w (t1 :: ts) st).2 k
        = none := by
      have h1 : (rateLimitSeq k limit w (t1 :: ts) st).2 k
          = some ⟨.num (1 + ts.length), some (t1 + w)⟩ := by
        have h2 := hnext.1
        simpa [rateLimitSeq, hstep] using h2
      simp [rlookup, h1]
      omega
    rw [checkRateLimit_fresh_step k limit w hw t2 _ hdead]

/-- C3 witness: limit 2, window 10, calls at times 0, 3, 5: the third
call is rejected, and a call at time 10 — when the window has elapsed —
is allowed again. -/
theorem C3_rate_limit_witness :
    ((rateLimitSeq "rk" 2 10 [0, 3, 5] emptyStore).1.get
        ⟨2, by decide⟩).allowed = false
    ∧ (checkRateLimit true 10 "rk" 2 10
        (rateLimitSeq "rk" 2 10 [0, 3, 5] emptyStore).2).result.allowed
      = true := by
  have h := C3_rate_limit_window "rk" 2 10 (by decide) 0 [3, 5] emptyStore
    rfl (by decide)
  constructor
  · exact (h.1 2 (by decide)).trans (by decide)
  · exact (congrArg RateLimitResult.allowed (h.2.2 10 (by decide))).trans
      (by decide)

/-! Helper lemmas for the security middleware (claim C4). -/

theorem blacklistIpKey_ne_suspiciousKey (ip : String) :
    blacklistIpKey ip ≠ suspiciousKey ip := by
  intro h
  have h2 := congrArg String.length h
  simp only [blacklistIpKey, suspiciousKey, String.length_append] at h2
  have e1 : ("blacklist:ip:").length = 13 := rfl
  have e2 : ("suspicious:").length = 11 := rfl
  rw [e1, e2] at h2
  omega

/-- Step 1 short-circuit: a blacklisted IP is answered 403 immediately,
with the store untouched — no detector, counter or sanitization runs. -/
theorem securityMiddleware_blacklisted (now : Nat) (st : RStore)
    (req : SecRequest)
    (hbl : (rget now st (blacklistIpKey req.ip)).isSome = true) :
    securityMiddleware now st req = (.blocked 403 "IP_BLACKLISTED", st) := by
  simp [securityMiddleware, hbl]

/-- A SQL-injection-flagged request with no live suspicious counter:
the counter is created at 1 with a one-hour TTL and the request is
answered 400. -/
theorem securityMiddleware_sql_first (now : Nat) (st : RStore)
    (req : SecRequest)
    (hbl : rget now st (blacklistIpKey req.ip) = none)
    (hsql : detectSQLInjection req.requestData = true)
    (hsusp : rlookup now st (suspiciousKey req.ip) = none) :
    securityMiddleware now st req
      = (.blocked 400 "INVALID_REQUEST",
         rset (rset st (suspiciousKey req.ip) ⟨.num 1, none⟩)
           (suspiciousKey req.ip) ⟨.num 1, some (now + 3600)⟩) := by
  have h1 : rlookup now (rset st (suspiciousKey req.ip) ⟨.num 1, none⟩)
      (suspiciousKey req.ip) = some ⟨.num 1, none⟩ := by
    simp [rlookup, rset]
  simp [securityMiddleware, hbl, hsql, rincr, hsusp, rexpire, h1]

/-- A SQL-injection-flagged request with a live suspicious counter still
below the threshold after incrementing: count and TTL are refreshed, the
request is answered 400, and no blacklist entry is written. -/
theorem securityMiddleware_sql_below (now : Nat) (st : RStore)
    (req : SecRequest) (c e : Nat)
    (hbl : rget now st (blacklistIpKey req.ip) = none)
    (hsql : detectSQLInjection req.requestData = true)
    (hsusp : st (suspiciousKey req.ip) = some ⟨.num c, some e⟩)
    (hlive : now < e) (hlt : c + 1 < 5) :
    securityMiddleware now st req
      = (.blocked 400 "INVALID_REQUEST",
         rset (rset st (suspiciousKey req.ip) ⟨.num (c + 1), some e⟩)
           (suspiciousKey req.ip) ⟨.num (c + 1), some (now + 3600)⟩) := by
  have hlook : rlookup now st (suspiciousKey req.ip)
      = some ⟨.num c, some e⟩ := by
    simp [rlookup, hsusp, hlive]
  have h1 : rlookup now
      (rset st (suspiciousKey req.ip) ⟨.num (c + 1), some e⟩)
      (suspiciousKey req.ip) = some ⟨.num (c + 1), some e⟩ := by
    simp [rlookup, rset, hlive]
  have h5 : ¬(5 ≤ c + 1) := by omega
  simp [securityMiddleware, hbl, hsql, rincr, hlook, rexpire, h1, h5]

/-- A SQL-injection-flagged request that brings the live suspicious
counter to the threshold: the IP is blacklisted for 24 hours with the
value `sql_injection`, and the request is answered 400. -/
theorem securityMiddleware_sql_escalate (now : Nat) (st : RStore)
    (req : SecRequest) (c e : Nat)
    (hbl : rget now st (blacklistIpKey req.ip) = none)
    (hsql : detectSQLInjection req.requestData = true)
    (hsusp : st (suspiciousKey req.ip) = some ⟨.num c, some e⟩)
    (hlive : now < e) (hge : 5 ≤ c + 1) :
    securityMiddleware now st req
      = (.blocked 400 "INVALID_REQUEST",
         rsetex now
           (rset (rset st (suspiciousKey req.ip) ⟨.num (c + 1), some e⟩)
             (suspiciousKey req.ip) ⟨.num (c + 1), some (now + 3600)⟩)
           (blacklistIpKey req.ip) 86400 "sql_injection") := by
  have hlook : rlookup now st (suspiciousKey req.ip)
      = some ⟨.num c, some e⟩ := by
    simp [rlookup, hsusp, hlive]
  have h1 : rlookup now
      (rset st (suspiciousKey req.ip) ⟨.num (c + 1), some e⟩)
      (suspiciousKey req.ip) = some ⟨.num (c + 1), some e⟩ := by
    simp [rlookup, rset, hlive]
  simp [securityMiddleware, hbl, hsql, rincr, hlook, rexpire, h1, hge]

/-- C4: when the SQL-injection detector fires on five requests from the
same IP within one hour (starting from a fresh store), the fifth firing
blacklists that IP with value `sql_injection` for 24 hours, and EVERY
request from that IP within the blacklist window — whatever its content —
is answered 403 `IP_BLACKLISTED` by the first check of the security
middleware, with the store untouched and no further check running. -/
theorem C4_sql_injection_escalation (ip : String)
    (r1 r2 r3 r4 r5 : SecRequest) (t1 t2 t3 t4 t5 : Nat)
    (hip1 : r1.ip = ip) (hip2 : r2.ip = ip) (hip3 : r3.ip = ip)
    (hip4 : r4.ip = ip) (hip5 : r5.ip = ip)
    (hs1 : detectSQLInjection r1.requestData = true)
    (hs2 : detectSQLInjection r2.requestData = true)
    (hs3 : detectSQLInjection r3.requestData = true)
    (hs4 : detectSQLInjection r4.requestData = true)
    (hs5 : detectSQLInjection r5.requestData = true)
    (h12 : t1 ≤ t2) (h23 : t2 ≤ t3) (h34 : t3 ≤ t4) (h45 : t4 ≤ t5)
    (hw : t5 < t1 + 3600) :
    ∀ (r6 : SecRequest) (t6 : Nat), r6.ip = ip → t5 ≤ t6 →
      t6 < t5 + 86400 →
      rget t6
          (runSecurityTrace [(t1, r1), (t2, r2), (t3, r3), (t4, r4), (t5, r5)]
            emptyStore) (blacklistIpKey ip)
        = some (.str "sql_injection")
      ∧ securityMiddleware t6
          (runSecurityTrace [(t1, r1), (t2, r2), (t3, r3), (t4, r4), (t5, r5)]
            emptyStore) r6
        = (.blocked 403 "IP_BLACKLISTED",
           runSecurityTrace [(t1, r1), (t2, r2), (t3, r3), (t4, r4), (t5, r5)]
             emptyStore) := by
  intro r6 t6 hip6 h56 h66
  have hne := blacklistIpKey_ne_suspiciousKey ip
  -- request 1: fresh suspicious counter
  have e1 := securityMiddleware_sql_first t1 emptyStore r1 rfl hs1 rfl
  rw [hip1] at e1
  -- request 2: counter 1 → 2
  have e2 := securityMiddleware_sql_below t2
    (rset (rset emptyStore (suspiciousKey ip) ⟨.num 1, none⟩)
      (suspiciousKey ip) ⟨.num 1, some (t1 + 3600)⟩)
    r2 1 (t1 + 3600)
    (by rw [hip2]; simp [rget, rlookup, rset, emptyStore, hne])
    hs2
    (by rw [hip2]; simp [rset])
    (by omega) (by omega)
  rw [hip2] at e2
  -- request 3: counter 2 → 3
  have e3 := securityMiddleware_sql_below t3
    (rset (rset (rset (rset emptyStore (suspiciousKey ip) ⟨.num 1, none⟩)
        (suspiciousKey ip) ⟨.num 1, some (t1 + 3600)⟩)
      (suspiciousKey ip) ⟨.num 2, some (t1 + 3600)⟩)
      (suspiciousKey ip) ⟨.num 2, some (t2 + 3600)⟩)
    r3 2 (t2 + 3600)
    (by rw [hip3]; simp [rget, rlookup, rset, emptyStore, hne])
    hs3
    (by rw [hip3]; simp [rset])
    (by omega) (by omega)
  rw [hip3] at e3
  -- request 4: counter 3 → 4
  have e4 := securityMiddleware_sql_below t4
    (rset (rset (rset (rset (rset (rset emptyStore
        (suspiciousKey ip) ⟨.num 1, none⟩)
        (suspiciousKey ip) ⟨.num 1, some (t1 + 3600)⟩)
        (suspiciousKey ip) ⟨.num 2, some (t1 + 3600)⟩)
        (suspiciousKey ip) ⟨.num 2, some (t2 + 3600)⟩)
        (suspiciousKey ip) ⟨.num 3, some (t2 + 3600)⟩)
        (suspiciousKey ip) ⟨.num 3, some (t3 + 3600)⟩)
    r4 3 (t3 + 3600)
    (by rw [hip4]; simp [rget, rlookup, rset, emptyStore, hne])
    hs4
    (by rw [hip4]; simp [rset])
    (by omega) (by omega)
  rw [hip4] at e4
  -- request 5: counter 4 → 5, escalation
  have e5 := securityMiddleware_sql_escalate t5
    (rset (rset (rset (rset (rset (rset (rset (rset emptyStore
        (suspiciousKey ip) ⟨.num 1, none⟩)
        (suspiciousKey ip) ⟨.num 1, some (t1 + 3600)⟩)
        (suspiciousKey ip) ⟨.num 2, some (t1 + 3600)⟩)
        (suspiciousKey ip) ⟨.num 2, some (t2 + 3600)⟩)
        (suspiciousKey ip) ⟨.num 3, some (t2 + 3600)⟩)
        (suspiciousKey ip) ⟨.num 3, some (t3 + 3600)⟩)
        (suspiciousKey ip) ⟨.num 4, some (t3 + 3600)⟩)
        (suspiciousKey ip) ⟨.num 4, some (t4 + 3600)⟩)
    r5 4 (t4 + 3600)
    (by rw [hip5]; simp [rget, rlookup, rset, emptyStore, hne])
    hs5
    (by rw [hip5]; simp [rset])
    (by omega) (by omega)
  rw [hip5] at e5
  have ftrace : runSecurityTrace
      [(t1, r1), (t2, r2), (t3, r3), (t4, r4), (t5, r5)] emptyStore
      = rsetex t5
          (rset (rset (rset (rset (rset (rset (rset (rset (rset (rset
              emptyStore
              (suspiciousKey ip) ⟨.num 1, none⟩)
              (suspiciousKey ip) ⟨.num 1, some (t1 + 3600)⟩)
              (suspiciousKey ip) ⟨.num 2, some (t1 + 3600)⟩)
              (suspiciousKey ip) ⟨.num 2, some (t2 + 3600)⟩)
              (suspiciousKey ip) ⟨.num 3, some (t2 + 3600)⟩)
              (suspiciousKey ip) ⟨.num 3, some (t3 + 3600)⟩)
              (suspiciousKey ip) ⟨.num 4, some (t3 + 3600)⟩)
              (suspiciousKey ip) ⟨.num 4, some (t4 + 3600)⟩)
              (suspiciousKey ip) ⟨.num 5, some (t4 + 3600)⟩)
              (suspiciousKey ip) ⟨.num 5, some (t5 + 3600)⟩)
          (blacklistIpKey ip) 86400 "sql_injection" := by
    simp only [runSecurityTrace, e1, e2, e3, e4, e5]
  have hval : rget t6
      (runSecurityTrace [(t1, r1), (t2, r2), (t3, r3), (t4, r4), (t5, r5)]
        emptyStore) (blacklistIpKey ip) = some (.str "sql_injection") := by
    rw [ftrace]
    simp [rget, rlookup, rsetex, rset, h66]
  refine ⟨hval, ?_⟩
  apply securityMiddleware_blacklisted
  rw [hip6, hval]
  rfl

/-- C4 witness: five quote-carrying requests from `203.0.113.7` at times
0, 10, 20, 30, 40 blacklist that IP, and a sixth request at time 50 is
answered 403 `IP_BLACKLISTED` with the store unchanged. -/
theorem C4_sql_injection_escalation_witness :
    rget 50
        (runSecurityTrace
          [(0, attackReq), (10, attackReq), (20, attackReq),
           (30, attackReq), (40, attackReq)] emptyStore)
        (blacklistIpKey "203.0.113.7") = some (.str "sql_injection")
    ∧ securityMiddleware 50
        (runSecurityTrace
          [(0, attackReq), (10, attackReq), (20, attackReq),
           (30, attackReq), (40, attackReq)] emptyStore) attackReq
      = (.blocked 403 "IP_BLACKLISTED",
         runSecurityTrace
           [(0, attackReq), (10, attackReq), (20, attackReq),
            (30, attackReq), (40, attackReq)] emptyStore) :=
  C4_sql_injection_escalation "203.0.113.7"
    attackReq attackReq attackReq attackReq attackReq 0 10 20 30 40
    rfl rfl rfl rfl rfl
    (by decide) (by decide) (by decide) (by decide) (by decide)
    (by omega) (by omega) (by omega) (by omega) (by omega)
    attackReq 50 rfl (by omega) (by omega)

/-- C5 counterexample: with a fresh store, the sixth login request from
the same IP within five minutes (times 0..250) is NOT rejected by the
security middleware — the sensitive-endpoint limiter only rejects above
10 requests — and the wrong-password handler branch answers 401
`INVALID_CREDENTIALS`, not 429. -/
theorem C5_counterexample :
    (securityMiddleware 250
        (runSecuritySeq loginAttemptReq [0, 50, 100, 150, 200] emptyStore)
        loginAttemptReq).1.statusOf = none
    ∧ loginHandler
        (some { id := "u1", email := "a@b.pt", name := "Ana",
                role := "MORADOR", buildingId := none,
                apartmentNumber := none, isActive := true,
                emailVerified := true, twoFactorEnabled := false })
        false none false ("at", "rt")
      = .failure 401 "INVALID_CREDENTIALS" :=
  ⟨rfl, rfl⟩

/-- C5 amended: a login with valid credentials for an active, verified
account without 2FA answers 200 with the access/refresh token pair; a
wrong password (for an active account) answers 401 `INVALID_CREDENTIALS`;
and the sensitive-endpoint rate limiter rejects with 429 only once the
per-IP-per-path count within the 5-minute window exceeds 10 — the sixth
attempt passes it, the eleventh is the first rejected. -/
theorem C5_amended_login_flow :
    (∀ (user : AuthUser) (a r : String),
        user.isActive = true → user.emailVerified = true →
        user.twoFactorEnabled = false →
        loginHandler (some user) true none false (a, r) = .success a r
        ∧ (loginHandler (some user) true none false (a, r)).status = 200)
    ∧ (∀ (user : AuthUser) (tc : Option String) (tv : Bool)
        (p : String × String),
        user.isActive = true →
        loginHandler (some user) false tc tv p
          = .failure 401 "INVALID_CREDENTIALS")
    ∧ (securityMiddleware 250
        (runSecuritySeq loginAttemptReq [0, 50, 100, 150, 200] emptyStore)
        loginAttemptReq).1.statusOf = none
    ∧ (securityMiddleware 250
        (runSecuritySeq loginAttemptReq
          [0, 25, 50, 75, 100, 125, 150, 175, 200, 225] emptyStore)
        loginAttemptReq).1
      = .blocked 429 "RATE_LIMIT_EXCEEDED" := by
  refine ⟨?_, ?_, rfl, rfl⟩
  · intro user a r hact hver h2fa
    simp [loginHandler, LoginResponse.status, hact, hver, h2fa]
  · intro user tc tv p hact
    simp [loginHandler, hact]

/-- C5 witness: the amended statement applied to a concrete account. -/
theorem C5_amended_witness :
    loginHandler
        (some { id := "u1", email := "a@b.pt", name := "Ana",
                role := "MORADOR", buildingId := none,
                apartmentNumber := none, isActive := true,
                emailVerified := true, twoFactorEnabled := false })
        true none false ("at", "rt") = .success "at" "rt"
    ∧ loginHandler
        (some { id := "u1", email := "a@b.pt", name := "Ana",
                role := "MORADOR", buildingId := none,
                apartmentNumber := none, isActive := true,
                emailVerified := true, twoFactorEnabled := false })
        false none false ("at", "rt")
      = .failure 401 "INVALID_CREDENTIALS" :=
  ⟨(C5_amended_login_flow.1
      { id := "u1", email := "a@b.pt", name := "Ana", role := "MORADOR",
        buildingId := none, apartmentNumber := none, isActive := true,
        emailVerified := true, twoFactorEnabled := false }
      "at" "rt" rfl rfl rfl).1,
   C5_amended_login_flow.2.1
      { id := "u1", email := "a@b.pt", name := "Ana", role := "MORADOR",
        buildingId := none, apartmentNumber := none, isActive := true,
        emailVerified := true, twoFactorEnabled := false }
      none false ("at", "rt") rfl⟩

end Zenith
